import Mathlib

/-
Verification development for the SiteAuditPro audit pipeline.

The Python sources are shallowly embedded:
 - audit-result dictionaries become a record of Option-valued fields; a
   Python `data.get(key, default)` lookup becomes `Option.getD`, so an
   absent key behaves exactly like the Python default;
 - byte sizes (page_size_kb, js_size_kb, css_size_kb, largest_image_kb)
   are modelled as exact rationals;
 - Python `int(...)` truncation toward zero is modelled by `pyInt`;
 - fallible network activity becomes an explicit outcome parameter.
-/

/-- One `issue`/`suggestion` entry of a suggestion category
(app/utils/ai_suggestions.py). -/
structure Suggestion where
  issue : String
  suggestion : String
deriving DecidableEq

/-- Presence booleans for the five security headers inspected by
`calculate_security_score` (auditor.py lines 119-136).  A missing
`security_headers` dictionary behaves as all-absent, which the Python
truthiness test treats the same as `False`. -/
structure SecurityHeaders where
  contentSecurityPolicy : Bool := false
  xFrameOptions : Bool := false
  xContentTypeOptions : Bool := false
  referrerPolicy : Bool := false
  strictTransportSecurity : Bool := false
deriving DecidableEq

/-- The audit-results dictionary as consumed by the three scorers
(auditor.py) and by the suggestion engine (ai_suggestions.py).  Every
field is optional: the Python code reads each key with `dict.get` and a
default, so a partial dictionary is legal input everywhere.  Fields that
the embedded functions never read (h3_count, js_files, css_files,
url, the prose fields, and the dead local reads of score_seo,
score_performance, score_security at the top of
_generate_fallback_suggestions) are omitted. -/
structure AuditData where
  has_title : Option Bool := none
  title : Option String := none
  title_length : Option Nat := none
  has_meta_description : Option Bool := none
  meta_description : Option String := none
  meta_length : Option Nat := none
  h1_count : Option Nat := none
  h2_count : Option Nat := none
  img_count : Option Nat := none
  missing_alt : Option Nat := none
  canonical_present : Option Bool := none
  robots_meta : Option Bool := none
  sitemap_available : Option Bool := none
  robots_available : Option Bool := none
  page_size_kb : Option ℚ := none
  js_size_kb : Option ℚ := none
  css_size_kb : Option ℚ := none
  largest_image_kb : Option ℚ := none
  security_headers : Option SecurityHeaders := none
deriving DecidableEq

/-- The empty feature dictionary: no key present. -/
def emptyAudit : AuditData := {}

/-- Model of Python `int(x)`: truncation toward zero. -/
def pyInt (q : ℚ) : ℤ := if 0 ≤ q then ⌊q⌋ else -⌊-q⌋

/-- Title contribution of `calculate_seo_score` (auditor.py lines 22-30):
20 for length in [30,60], 10 for the near bands, else 5, given a title. -/
def titlePoints (d : AuditData) : ℤ :=
  if d.has_title.getD false then
    (let title_len := (d.title.getD "").length
     if 30 ≤ title_len ∧ title_len ≤ 60 then 20
     else if (20 ≤ title_len ∧ title_len < 30) ∨ (60 < title_len ∧ title_len ≤ 70) then 10
     else 5)
  else 0

/-- Meta-description contribution (auditor.py lines 32-40). -/
def metaPoints (d : AuditData) : ℤ :=
  if d.has_meta_description.getD false then
    (let meta_len := (d.meta_description.getD "").length
     if 120 ≤ meta_len ∧ meta_len ≤ 160 then 15
     else if (100 ≤ meta_len ∧ meta_len < 120) ∨ (160 < meta_len ∧ meta_len ≤ 180) then 8
     else 3)
  else 0

/-- H1-count contribution (auditor.py lines 42-47). -/
def h1Points (d : AuditData) : ℤ :=
  if d.h1_count.getD 0 = 1 then 15 else if 1 < d.h1_count.getD 0 then 5 else 0

/-- Alt-attribute contribution (auditor.py lines 49-54):
`int(15 * (total_images - missing_alt) / total_images)` when at least one
image exists, nothing added otherwise. -/
def altPoints (d : AuditData) : ℤ :=
  if 0 < d.img_count.getD 0 then
    pyInt (15 * (((d.img_count.getD 0 : ℚ) - (d.missing_alt.getD 0 : ℚ)) / (d.img_count.getD 0 : ℚ)))
  else 0

/-- Canonical-tag contribution (auditor.py lines 56-58). -/
def canonicalPoints (d : AuditData) : ℤ := if d.canonical_present.getD false then 10 else 0

/-- Robots-meta contribution (auditor.py lines 60-62). -/
def robotsMetaPoints (d : AuditData) : ℤ := if d.robots_meta.getD false then 10 else 0

/-- Sitemap contribution (auditor.py lines 64-66). -/
def sitemapPoints (d : AuditData) : ℤ := if d.sitemap_available.getD false then 10 else 0

/-- Robots.txt contribution (auditor.py lines 68-70). -/
def robotsTxtPoints (d : AuditData) : ℤ := if d.robots_available.getD false then 5 else 0

/-- Embedding of `calculate_seo_score` (auditor.py lines 17-72).  The
sequential `score += ...` accumulation is the sum of the per-check
contributions in source order; the final `min(score, max_score)` is the
outer `min`. -/
def calculate_seo_score (d : AuditData) : ℤ :=
  min (titlePoints d + metaPoints d + h1Points d + altPoints d + canonicalPoints d
    + robotsMetaPoints d + sitemapPoints d + robotsTxtPoints d) 100

/-- The non-alt-text part of `calculate_seo_score`: the same per-check
contributions with the alt-attribute term (auditor.py lines 49-54)
removed.  Used to state what the alt term alone contributes. -/
def seoNonAltPoints (d : AuditData) : ℤ :=
  titlePoints d + metaPoints d + h1Points d + canonicalPoints d
    + robotsMetaPoints d + sitemapPoints d + robotsTxtPoints d

/-- The page-size if/elif penalty block of `calculate_performance_score`
(auditor.py lines 81-87), applied to the running score `s`. -/
def pageSizeStep (s : ℤ) (p : ℚ) : ℤ :=
  if 2000 < p then s - 30 else if 1000 < p then s - 20 else if 500 < p then s - 10 else s

/-- The JS-size if/elif penalty block (auditor.py lines 90-96). -/
def jsSizeStep (s : ℤ) (j : ℚ) : ℤ :=
  if 500 < j then s - 25 else if 300 < j then s - 15 else if 200 < j then s - 8 else s

/-- The CSS-size if/elif penalty block (auditor.py lines 99-105). -/
def cssSizeStep (s : ℤ) (c : ℚ) : ℤ :=
  if 200 < c then s - 20 else if 100 < c then s - 12 else if 50 < c then s - 6 else s

/-- The largest-image if/elif penalty block (auditor.py lines 108-114). -/
def imageSizeStep (s : ℤ) (i : ℚ) : ℤ :=
  if 300 < i then s - 15 else if 200 < i then s - 10 else if 100 < i then s - 5 else s

/-- Embedding of `calculate_performance_score` (auditor.py lines 75-116):
starts at 100, the four penalty blocks run in source order on the running
score, final `max(score, 0)`. -/
def calculate_performance_score (d : AuditData) : ℤ :=
  max
    (imageSizeStep
      (cssSizeStep
        (jsSizeStep
          (pageSizeStep 100 (d.page_size_kb.getD 0))
          (d.js_size_kb.getD 0))
        (d.css_size_kb.getD 0))
      (d.largest_image_kb.getD 0))
    0

/-- Embedding of `calculate_security_score` (auditor.py lines 119-136):
20 points per present security header. -/
def calculate_security_score (d : AuditData) : ℤ :=
  (if (d.security_headers.getD {}).contentSecurityPolicy then 20 else 0)
  + (if (d.security_headers.getD {}).xFrameOptions then 20 else 0)
  + (if (d.security_headers.getD {}).xContentTypeOptions then 20 else 0)
  + (if (d.security_headers.getD {}).referrerPolicy then 20 else 0)
  + (if (d.security_headers.getD {}).strictTransportSecurity then 20 else 0)

/-- Well-formedness guaranteed by the extractor (auditor.py lines 202-205):
`missing_alt` counts the subset of the `img_count` images lacking an alt
attribute, so it never exceeds `img_count`. -/
def WellFormedFeatures (d : AuditData) : Prop :=
  d.missing_alt.getD 0 ≤ d.img_count.getD 0

/-- Deduction for the page-size category, stated as the specification
words it: the single highest matching threshold applies. -/
def pageSizeDeduction (kb : ℚ) : ℤ :=
  if 2000 < kb then 30 else if 1000 < kb then 20 else if 500 < kb then 10 else 0

/-- Deduction for the JS-size category as the specification words it. -/
def jsSizeDeduction (kb : ℚ) : ℤ :=
  if 500 < kb then 25 else if 300 < kb then 15 else if 200 < kb then 8 else 0

/-- Deduction for the CSS-size category as the specification words it. -/
def cssSizeDeduction (kb : ℚ) : ℤ :=
  if 200 < kb then 20 else if 100 < kb then 12 else if 50 < kb then 6 else 0

/-- Deduction for the largest-image category as the specification words it. -/
def imageSizeDeduction (kb : ℚ) : ℤ :=
  if 300 < kb then 15 else if 200 < kb then 10 else if 100 < kb then 5 else 0

theorem pageSizeStep_eq (s : ℤ) (p : ℚ) : pageSizeStep s p = s - pageSizeDeduction p := by
  unfold pageSizeStep pageSizeDeduction
  split_ifs <;> ring

theorem jsSizeStep_eq (s : ℤ) (j : ℚ) : jsSizeStep s j = s - jsSizeDeduction j := by
  unfold jsSizeStep jsSizeDeduction
  split_ifs <;> ring

theorem cssSizeStep_eq (s : ℤ) (c : ℚ) : cssSizeStep s c = s - cssSizeDeduction c := by
  unfold cssSizeStep cssSizeDeduction
  split_ifs <;> ring

theorem imageSizeStep_eq (s : ℤ) (i : ℚ) : imageSizeStep s i = s - imageSizeDeduction i := by
  unfold imageSizeStep imageSizeDeduction
  split_ifs <;> ring

theorem perf_eq_deductions (d : AuditData) :
    calculate_performance_score d =
      max (100 - pageSizeDeduction (d.page_size_kb.getD 0) - jsSizeDeduction (d.js_size_kb.getD 0)
        - cssSizeDeduction (d.css_size_kb.getD 0) - imageSizeDeduction (d.largest_image_kb.getD 0)) 0 := by
  unfold calculate_performance_score
  rw [pageSizeStep_eq, jsSizeStep_eq, cssSizeStep_eq, imageSizeStep_eq]

theorem pageSizeDeduction_nonneg (p : ℚ) : 0 ≤ pageSizeDeduction p := by
  unfold pageSizeDeduction
  split_ifs <;> norm_num

theorem jsSizeDeduction_nonneg (j : ℚ) : 0 ≤ jsSizeDeduction j := by
  unfold jsSizeDeduction
  split_ifs <;> norm_num

theorem cssSizeDeduction_nonneg (c : ℚ) : 0 ≤ cssSizeDeduction c := by
  unfold cssSizeDeduction
  split_ifs <;> norm_num

theorem imageSizeDeduction_nonneg (i : ℚ) : 0 ≤ imageSizeDeduction i := by
  unfold imageSizeDeduction
  split_ifs <;> norm_num

theorem pageSizeDeduction_mono {x y : ℚ} (h : x ≤ y) :
    pageSizeDeduction x ≤ pageSizeDeduction y := by
  unfold pageSizeDeduction
  split_ifs <;> linarith

theorem jsSizeDeduction_mono {x y : ℚ} (h : x ≤ y) :
    jsSizeDeduction x ≤ jsSizeDeduction y := by
  unfold jsSizeDeduction
  split_ifs <;> linarith

theorem cssSizeDeduction_mono {x y : ℚ} (h : x ≤ y) :
    cssSizeDeduction x ≤ cssSizeDeduction y := by
  unfold cssSizeDeduction
  split_ifs <;> linarith

theorem imageSizeDeduction_mono {x y : ℚ} (h : x ≤ y) :
    imageSizeDeduction x ≤ imageSizeDeduction y := by
  unfold imageSizeDeduction
  split_ifs <;> linarith

theorem pyInt_eq_floor {q : ℚ} (h : 0 ≤ q) : pyInt q = ⌊q⌋ := by
  unfold pyInt
  exact if_pos h

theorem pyInt_nonneg {q : ℚ} (h : 0 ≤ q) : 0 ≤ pyInt q := by
  rw [pyInt_eq_floor h]
  exact Int.floor_nonneg.mpr h

theorem titlePoints_nonneg (d : AuditData) : 0 ≤ titlePoints d := by
  unfold titlePoints
  dsimp only
  split_ifs <;> norm_num

theorem metaPoints_nonneg (d : AuditData) : 0 ≤ metaPoints d := by
  unfold metaPoints
  dsimp only
  split_ifs <;> norm_num

theorem h1Points_nonneg (d : AuditData) : 0 ≤ h1Points d := by
  unfold h1Points
  split_ifs <;> norm_num

theorem canonicalPoints_nonneg (d : AuditData) : 0 ≤ canonicalPoints d := by
  unfold canonicalPoints
  split_ifs <;> norm_num

theorem robotsMetaPoints_nonneg (d : AuditData) : 0 ≤ robotsMetaPoints d := by
  unfold robotsMetaPoints
  split_ifs <;> norm_num

theorem sitemapPoints_nonneg (d : AuditData) : 0 ≤ sitemapPoints d := by
  unfold sitemapPoints
  split_ifs <;> norm_num

theorem robotsTxtPoints_nonneg (d : AuditData) : 0 ≤ robotsTxtPoints d := by
  unfold robotsTxtPoints
  split_ifs <;> norm_num

theorem altPoints_nonneg {d : AuditData} (h : WellFormedFeatures d) : 0 ≤ altPoints d := by
  have h' : d.missing_alt.getD 0 ≤ d.img_count.getD 0 := h
  unfold altPoints
  split_ifs with ht
  · apply pyInt_nonneg
    have hm : (d.missing_alt.getD 0 : ℚ) ≤ (d.img_count.getD 0 : ℚ) := by exact_mod_cast h'
    have ht2 : (0 : ℚ) < (d.img_count.getD 0 : ℚ) := by exact_mod_cast ht
    have := div_nonneg (by linarith :
        (0 : ℚ) ≤ (d.img_count.getD 0 : ℚ) - (d.missing_alt.getD 0 : ℚ)) ht2.le
    linarith
  · norm_num

theorem altPoints_le_fifteen {d : AuditData} (h : WellFormedFeatures d) : altPoints d ≤ 15 := by
  have h' : d.missing_alt.getD 0 ≤ d.img_count.getD 0 := h
  unfold altPoints
  split_ifs with ht
  · have hm : (d.missing_alt.getD 0 : ℚ) ≤ (d.img_count.getD 0 : ℚ) := by exact_mod_cast h'
    have ht2 : (0 : ℚ) < (d.img_count.getD 0 : ℚ) := by exact_mod_cast ht
    have hmn : (0 : ℚ) ≤ (d.missing_alt.getD 0 : ℚ) := Nat.cast_nonneg _
    have hr : ((d.img_count.getD 0 : ℚ) - (d.missing_alt.getD 0 : ℚ)) / (d.img_count.getD 0 : ℚ) ≤ 1 := by
      rw [div_le_one ht2]
      linarith
    have h0 : (0 : ℚ) ≤ 15 * (((d.img_count.getD 0 : ℚ) - (d.missing_alt.getD 0 : ℚ)) / (d.img_count.getD 0 : ℚ)) := by
      have := div_nonneg (by linarith :
          (0 : ℚ) ≤ (d.img_count.getD 0 : ℚ) - (d.missing_alt.getD 0 : ℚ)) ht2.le
      linarith
    rw [pyInt_eq_floor h0]
    calc ⌊(15 : ℚ) * (((d.img_count.getD 0 : ℚ) - (d.missing_alt.getD 0 : ℚ)) / (d.img_count.getD 0 : ℚ))⌋
        ≤ ⌊(15 : ℚ)⌋ := Int.floor_le_floor (by linarith)
      _ = 15 := by norm_num
  · norm_num

theorem seo_decomp (d : AuditData) :
    calculate_seo_score d = min (seoNonAltPoints d + altPoints d) 100 := by
  unfold calculate_seo_score seoNonAltPoints
  congr 1
  ring

/-- C4: for every feature set (well-formed per the §3 data model, i.e. the
missing-alt count never exceeds the image count), each of the three
scoring functions returns a value in [0, 100]. -/
theorem scores_within_bounds (d : AuditData) (h : WellFormedFeatures d) :
    (0 ≤ calculate_seo_score d ∧ calculate_seo_score d ≤ 100) ∧
    (0 ≤ calculate_performance_score d ∧ calculate_performance_score d ≤ 100) ∧
    (0 ≤ calculate_security_score d ∧ calculate_security_score d ≤ 100) := by
  refine ⟨⟨?_, min_le_right _ _⟩, ⟨?_, ?_⟩, ?_⟩
  · unfold calculate_seo_score
    refine le_min ?_ (by norm_num)
    linarith [titlePoints_nonneg d, metaPoints_nonneg d, h1Points_nonneg d, altPoints_nonneg h,
      canonicalPoints_nonneg d, robotsMetaPoints_nonneg d, sitemapPoints_nonneg d,
      robotsTxtPoints_nonneg d]
  · rw [perf_eq_deductions]
    exact le_max_right _ _
  · rw [perf_eq_deductions]
    refine max_le ?_ (by norm_num)
    linarith [pageSizeDeduction_nonneg (d.page_size_kb.getD 0),
      jsSizeDeduction_nonneg (d.js_size_kb.getD 0),
      cssSizeDeduction_nonneg (d.css_size_kb.getD 0),
      imageSizeDeduction_nonneg (d.largest_image_kb.getD 0)]
  · unfold calculate_security_score
    constructor <;> split_ifs <;> norm_num

/-- Feature set used to witness C4: four images, one missing alt text,
an oversized page and two security headers present. -/
def boundsWitnessData : AuditData :=
  { has_title := some true, title := some "An example page title for bounds",
    img_count := some 4, missing_alt := some 1,
    page_size_kb := some 2500, js_size_kb := some 600,
    security_headers := some { contentSecurityPolicy := true, strictTransportSecurity := true } }

theorem scores_within_bounds_witness :
    WellFormedFeatures boundsWitnessData ∧
    ((0 ≤ calculate_seo_score boundsWitnessData ∧ calculate_seo_score boundsWitnessData ≤ 100) ∧
     (0 ≤ calculate_performance_score boundsWitnessData ∧
       calculate_performance_score boundsWitnessData ≤ 100) ∧
     (0 ≤ calculate_security_score boundsWitnessData ∧
       calculate_security_score boundsWitnessData ≤ 100)) :=
  ⟨by unfold WellFormedFeatures; decide,
   scores_within_bounds boundsWitnessData (by unfold WellFormedFeatures; decide)⟩

/-- C5: the performance score equals 100 minus one highest-matching
threshold deduction per size category, floored at 0; and in the concrete
scenario page_size_kb = 2500 and js_size_kb = 600 with the CSS and image
sizes at most their lowest thresholds, the score is 100 - 30 - 25 = 45. -/
theorem performance_score_threshold_formula (d : AuditData) :
    (calculate_performance_score d =
       max (100 - pageSizeDeduction (d.page_size_kb.getD 0) - jsSizeDeduction (d.js_size_kb.getD 0)
         - cssSizeDeduction (d.css_size_kb.getD 0) - imageSizeDeduction (d.largest_image_kb.getD 0)) 0) ∧
    (d.page_size_kb = some 2500 → d.js_size_kb = some 600 →
      d.css_size_kb.getD 0 ≤ 50 → d.largest_image_kb.getD 0 ≤ 100 →
      calculate_performance_score d = 45) := by
  refine ⟨perf_eq_deductions d, fun h1 h2 h3 h4 => ?_⟩
  rw [perf_eq_deductions d, h1, h2]
  have hc : cssSizeDeduction (d.css_size_kb.getD 0) = 0 := by
    unfold cssSizeDeduction
    split_ifs <;> linarith
  have hi : imageSizeDeduction (d.largest_image_kb.getD 0) = 0 := by
    unfold imageSizeDeduction
    split_ifs <;> linarith
  rw [hc, hi]
  decide

/-- Feature set used to witness C5: the spec scenario sizes, CSS and image
sizes absent (hence at their 0 defaults, below the lowest thresholds). -/
def scenarioData : AuditData :=
  { page_size_kb := some 2500, js_size_kb := some 600 }

theorem performance_score_threshold_formula_witness :
    calculate_performance_score scenarioData = 45 :=
  (performance_score_threshold_formula scenarioData).2 rfl rfl (by decide) (by decide)

/-- C6: the performance score is monotonically non-increasing in each of
page_size_kb, js_size_kb, css_size_kb and largest_image_kb, the other
three inputs held fixed. -/
theorem performance_score_antitone (d : AuditData) (x y : ℚ) (hxy : x ≤ y) :
    calculate_performance_score { d with page_size_kb := some y }
        ≤ calculate_performance_score { d with page_size_kb := some x } ∧
    calculate_performance_score { d with js_size_kb := some y }
        ≤ calculate_performance_score { d with js_size_kb := some x } ∧
    calculate_performance_score { d with css_size_kb := some y }
        ≤ calculate_performance_score { d with css_size_kb := some x } ∧
    calculate_performance_score { d with largest_image_kb := some y }
        ≤ calculate_performance_score { d with largest_image_kb := some x } := by
  refine ⟨?_, ?_, ?_, ?_⟩ <;> simp only [perf_eq_deductions, Option.getD_some]
  · exact max_le_max (by linarith [pageSizeDeduction_mono hxy]) le_rfl
  · exact max_le_max (by linarith [jsSizeDeduction_mono hxy]) le_rfl
  · exact max_le_max (by linarith [cssSizeDeduction_mono hxy]) le_rfl
  · exact max_le_max (by linarith [imageSizeDeduction_mono hxy]) le_rfl

theorem performance_score_antitone_witness :
    calculate_performance_score { emptyAudit with page_size_kb := some 2500 }
        ≤ calculate_performance_score { emptyAudit with page_size_kb := some 100 } ∧
    calculate_performance_score { emptyAudit with js_size_kb := some 2500 }
        ≤ calculate_performance_score { emptyAudit with js_size_kb := some 100 } ∧
    calculate_performance_score { emptyAudit with css_size_kb := some 2500 }
        ≤ calculate_performance_score { emptyAudit with css_size_kb := some 100 } ∧
    calculate_performance_score { emptyAudit with largest_image_kb := some 2500 }
        ≤ calculate_performance_score { emptyAudit with largest_image_kb := some 100 } :=
  performance_score_antitone emptyAudit 100 2500 (by norm_num)

/-- C7: the alt-text term of the SEO score contributes the floor of
15 scaled by the ratio of images with alt text to total images when at
least one image exists (a value in [0, 15]), and contributes exactly 0
when the feature set has zero images. -/
theorem seo_alt_text_term (d : AuditData) :
    (d.img_count.getD 0 = 0 → calculate_seo_score d = min (seoNonAltPoints d) 100) ∧
    (0 < d.img_count.getD 0 → WellFormedFeatures d →
      calculate_seo_score d
          = min (seoNonAltPoints d
              + ⌊(15 : ℚ) * (((d.img_count.getD 0 : ℚ) - (d.missing_alt.getD 0 : ℚ))
                  / (d.img_count.getD 0 : ℚ))⌋) 100
        ∧ 0 ≤ altPoints d ∧ altPoints d ≤ 15) := by
  constructor
  · intro h0
    rw [seo_decomp]
    have halt : altPoints d = 0 := by
      unfold altPoints
      rw [if_neg]
      omega
    rw [halt, add_zero]
  · intro hpos hwf
    refine ⟨?_, altPoints_nonneg hwf, altPoints_le_fifteen hwf⟩
    rw [seo_decomp]
    have h' : d.missing_alt.getD 0 ≤ d.img_count.getD 0 := hwf
    have hm : (d.missing_alt.getD 0 : ℚ) ≤ (d.img_count.getD 0 : ℚ) := by exact_mod_cast h'
    have ht2 : (0 : ℚ) < (d.img_count.getD 0 : ℚ) := by exact_mod_cast hpos
    have h0 : (0 : ℚ) ≤ 15 * (((d.img_count.getD 0 : ℚ) - (d.missing_alt.getD 0 : ℚ)) / (d.img_count.getD 0 : ℚ)) := by
      have := div_nonneg (by linarith :
          (0 : ℚ) ≤ (d.img_count.getD 0 : ℚ) - (d.missing_alt.getD 0 : ℚ)) ht2.le
      linarith
    have halt : altPoints d
        = ⌊(15 : ℚ) * (((d.img_count.getD 0 : ℚ) - (d.missing_alt.getD 0 : ℚ)) / (d.img_count.getD 0 : ℚ))⌋ := by
      unfold altPoints
      rw [if_pos hpos, pyInt_eq_floor h0]
    rw [halt]

/-- Feature set used to witness C7: three images, one missing alt text. -/
def altWitnessData : AuditData := { img_count := some 3, missing_alt := some 1 }

theorem seo_alt_text_term_witness :
    0 < altWitnessData.img_count.getD 0 ∧ WellFormedFeatures altWitnessData ∧
    (calculate_seo_score altWitnessData
        = min (seoNonAltPoints altWitnessData
            + ⌊(15 : ℚ) * (((altWitnessData.img_count.getD 0 : ℚ)
                - (altWitnessData.missing_alt.getD 0 : ℚ))
                / (altWitnessData.img_count.getD 0 : ℚ))⌋) 100
      ∧ 0 ≤ altPoints altWitnessData ∧ altPoints altWitnessData ≤ 15) :=
  ⟨by decide, by unfold WellFormedFeatures; decide,
   (seo_alt_text_term altWitnessData).2 (by decide) (by unfold WellFormedFeatures; decide)⟩

/-- C10: all three scoring functions are total over partial feature sets,
every missing field read through its Python default, and on the empty
feature set the SEO score is 0, the performance score is 100 and the
security score is 0. -/
theorem scores_on_empty_feature_set :
    calculate_seo_score emptyAudit = 0 ∧ calculate_performance_score emptyAudit = 100 ∧
    calculate_security_score emptyAudit = 0 := by
  refine ⟨?_, ?_, ?_⟩ <;> decide

/-- Outcome of one HEAD probe: the final HTTP status code after redirects,
or an error for any raised exception (timeout, DNS failure, connection
refused). -/
def ProbeOutcome : Type := Except Unit Nat

/-- Embedding of `check_link_status` (auditor.py lines 139-145): a probe
response is working iff `200 <= status_code < 400`; any exception yields
`(url, False)`. -/
def check_link_status (url : String) (resp : Except Unit Nat) : String × Bool :=
  match resp with
  | Except.ok status => (url, decide (200 ≤ status ∧ status < 400))
  | Except.error _ => (url, false)

/-- Embedding of the aggregation loop over completed futures
(auditor.py lines 324-335): each `(url, is_working)` outcome increments
exactly one of the two counters. -/
def tallyLinks (results : List (String × Bool)) : Nat × Nat :=
  results.foldl (fun acc r => if r.2 then (acc.1 + 1, acc.2) else (acc.1, acc.2 + 1)) (0, 0)

theorem tallyLinks_aux (results : List (String × Bool)) (a b : Nat) :
    results.foldl (fun acc r => if r.2 then (acc.1 + 1, acc.2) else (acc.1, acc.2 + 1)) (a, b)
      = (a + results.countP (fun r => r.2), b + results.countP (fun r => !r.2)) := by
  induction results generalizing a b with
  | nil => simp
  | cons r rest ih =>
    by_cases hr : r.2
    · simp [List.countP_cons, hr, ih, Nat.add_assoc, Nat.add_comm]
    · simp [List.countP_cons, hr, ih, Nat.add_assoc, Nat.add_comm]

theorem tallyLinks_eq_counts (results : List (String × Bool)) :
    tallyLinks results = (results.countP (fun r => r.2), results.countP (fun r => !r.2)) := by
  unfold tallyLinks
  rw [tallyLinks_aux]
  simp

theorem countP_working_add_broken (l : List (String × Bool)) :
    l.countP (fun r => r.2) + l.countP (fun r => !r.2) = l.length := by
  induction l with
  | nil => rfl
  | cons r rest ih =>
    by_cases hr : r.2 <;> simp [List.countP_cons, hr] <;> omega

/-- C2: for every list of submitted URLs, aggregating the completed probe
outcomes in any completion order yields one outcome per URL with
working + broken = N, the counts independent of the completion order; and
an outcome is working iff its final status code lies in [200, 400), any
exception counting as broken. -/
theorem link_checker_counts (urls : List String) (net : String → Except Unit Nat)
    (completed : List (String × Bool))
    (hperm : List.Perm completed (urls.map (fun u => check_link_status u (net u)))) :
    (tallyLinks completed).1 + (tallyLinks completed).2 = urls.length ∧
    tallyLinks completed = tallyLinks (urls.map (fun u => check_link_status u (net u))) ∧
    (∀ u s, (check_link_status u (Except.ok s)).2 = true ↔ (200 ≤ s ∧ s < 400)) ∧
    (∀ u e, (check_link_status u (Except.error e)).2 = false) := by
  refine ⟨?_, ?_, ?_, ?_⟩
  · rw [tallyLinks_eq_counts]
    have hlen : completed.length = urls.length := by
      rw [hperm.length_eq, List.length_map]
    dsimp only
    rw [countP_working_add_broken, hlen]
  · rw [tallyLinks_eq_counts, tallyLinks_eq_counts,
      hperm.countP_eq (fun r => r.2), hperm.countP_eq (fun r => !r.2)]
  · intro u s
    simp [check_link_status]
  · intro u e
    simp [check_link_status]

/-- The boundary scenario for C2: status 399 is working, 400 and 499 are
broken, an exception is broken, and the counts are aggregated from a
completion order that reverses the submission order. -/
theorem link_checker_counts_witness :
    (tallyLinks [("d.example", false), ("c.example", false), ("b.example", false),
        ("a.example", true)]).1
      + (tallyLinks [("d.example", false), ("c.example", false), ("b.example", false),
          ("a.example", true)]).2
      = (["a.example", "b.example", "c.example", "d.example"] : List String).length :=
  (link_checker_counts ["a.example", "b.example", "c.example", "d.example"]
    (fun u => if u = "a.example" then Except.ok 399 else if u = "b.example" then Except.ok 400
      else if u = "c.example" then Except.ok 499 else Except.error ())
    [("d.example", false), ("c.example", false), ("b.example", false), ("a.example", true)]
    (by decide)).1

/-- Model of Python `str.startswith`: character-level prefix test. -/
def strStartsWith (s pre : String) : Bool := pre.data.isPrefixOf s.data

/-- Embedding of the scheme normalization performed identically in
`analyze_url` (auditor.py lines 158-160) and in the `analyze` route
(main.py lines 108-111):
`if not url.startswith(("http:" + "//", "https:" + "//")): url = "https://" + url`. -/
def ensureScheme (url : String) : String :=
  if strStartsWith url "http://" || strStartsWith url "https://" then url
  else "https://" ++ url

/-- Helper for `hasUrlScheme`: consumes the remainder of an RFC 3986
scheme, succeeding on the terminating colon. -/
def schemeRest : List Char → Bool
  | [] => false
  | c :: rest =>
      if c = ':' then true
      else (c.isAlphanum || c = '+' || c = '-' || c = '.') && schemeRest rest

/-- Modelled from the claim wording: whether the input carries a URL
scheme, per RFC 3986 (a letter followed by letters, digits, plus, minus
or dot, terminated by a colon). -/
def hasUrlScheme (s : String) : Bool :=
  match s.data with
  | [] => false
  | c :: rest => c.isAlpha && schemeRest rest

/-- C9 counterexample: `ftp://cdn.example.com` carries a URL scheme, yet
the fetch step does not pass it through unchanged - it prefixes
`https://` because the input does not start with `http://` or
`https://`. -/
theorem scheme_normalization_counterexample :
    hasUrlScheme "ftp://cdn.example.com" = true ∧
    ensureScheme "ftp://cdn.example.com" = "https://ftp://cdn.example.com" ∧
    ensureScheme "ftp://cdn.example.com" ≠ "ftp://cdn.example.com" := by
  refine ⟨?_, ?_, ?_⟩ <;> decide

/-- C9 amended: the fetch step prefixes `https://` exactly when the input
does not start with the literal `http://` or `https://`; only such inputs
are passed through unchanged. -/
theorem scheme_normalization_amended (url : String) :
    (ensureScheme url = url ↔
      (strStartsWith url "http://" = true ∨ strStartsWith url "https://" = true)) ∧
    ((strStartsWith url "http://" = false ∧ strStartsWith url "https://" = false) →
      ensureScheme url = "https://" ++ url) := by
  by_cases h : (strStartsWith url "http://" || strStartsWith url "https://") = true
  · have he : ensureScheme url = url := by
      unfold ensureScheme
      rw [if_pos h]
    rw [Bool.or_eq_true] at h
    refine ⟨iff_of_true he h, fun hc => ?_⟩
    rcases hc with ⟨ha, hb⟩
    rw [ha, hb] at h
    simp at h
  · have he : ensureScheme url = "https://" ++ url := by
      unfold ensureScheme
      rw [if_neg h]
    have hne : "https://" ++ url ≠ url := by
      intro heq
      have h2 := congrArg String.length heq
      rw [String.length_append] at h2
      have h8 : ("https://" : String).length = 8 := rfl
      rw [h8] at h2
      omega
    rw [Bool.or_eq_true] at h
    refine ⟨iff_of_false (he ▸ hne) h, fun _ => he⟩

theorem scheme_normalization_amended_witness :
    (strStartsWith "example.com" "http://" = false ∧
      strStartsWith "example.com" "https://" = false) ∧
    ensureScheme "example.com" = "https://" ++ "example.com" :=
  ⟨⟨by decide, by decide⟩,
   (scheme_normalization_amended "example.com").2 ⟨by decide, by decide⟩⟩

/-- Splits a character list at the first `://`, returning the part before
and the part after, or none when no `://` occurs. -/
def splitSchemeSep : List Char → Option (List Char × List Char)
  | ':' :: '/' :: '/' :: rest => some ([], rest)
  | c :: rest => (splitSchemeSep rest).map (fun p => (c :: p.1, p.2))
  | [] => none

/-- Splits host-and-path characters at the first slash: the host part and
the path part (the path keeps its leading slash). -/
def splitHostPath : List Char → List Char × List Char
  | [] => ([], [])
  | '/' :: rest => ([], '/' :: rest)
  | c :: rest =>
      let p := splitHostPath rest
      (c :: p.1, p.2)

/-- Keeps a path up to and including its last slash; empty when the path
contains no slash. -/
def keepThroughLastSlash : List Char → List Char
  | [] => []
  | c :: rest =>
      let tail := keepThroughLastSlash rest
      if tail ≠ [] then c :: tail
      else if c = '/' then ['/'] else []

/-- The `scheme://host` origin of an absolute URL (empty when the URL has
no `://`). -/
def urlOrigin (url : String) : String :=
  match splitSchemeSep url.data with
  | some (sch, rest) => String.mk sch ++ "://" ++ String.mk (splitHostPath rest).1
  | none => ""

/-- The directory base of an absolute URL: origin plus the path up to and
including its last slash, an empty path counting as the root slash. -/
def urlDirBase (url : String) : String :=
  match splitSchemeSep url.data with
  | some (sch, rest) =>
      let path := keepThroughLastSlash (splitHostPath rest).2
      String.mk sch ++ "://" ++ String.mk (splitHostPath rest).1
        ++ (if path = [] then "/" else String.mk path)
  | none => ""

/-- Model of `urllib.parse.urljoin` restricted to the reference shapes the
audit pipeline produces: a reference carrying its own scheme is returned
unchanged, a root-relative reference replaces the base path, and any
other reference replaces the last segment of the base path. -/
def urljoin (base rel : String) : String :=
  if hasUrlScheme rel then rel
  else if strStartsWith rel "/" then urlOrigin base ++ rel
  else urlDirBase base ++ rel

/-- The page fetch as seen by the resource-resolution code of
`analyze_url`: the final post-redirect URL (`response.url`, which the
code never reads) and the raw reference attributes discovered in the
parsed HTML. -/
structure FetchResponse where
  finalUrl : String
  scriptSrcs : List String := []
  cssHrefs : List String := []
  imgSrcs : List String := []
  anchorHrefs : List String := []
deriving DecidableEq

/-- Embedding of the script-src resolution loop (auditor.py lines
241-248): every `src` is joined against `url`, the scheme-normalized
input URL of `analyze_url`, not against the response. -/
def resolvedScriptUrls (url : String) (resp : FetchResponse) : List String :=
  resp.scriptSrcs.map (fun src => urljoin url src)

/-- Embedding of the stylesheet-href resolution loop (auditor.py lines
261-264). -/
def resolvedCssUrls (url : String) (resp : FetchResponse) : List String :=
  resp.cssHrefs.map (fun href => urljoin url href)

/-- Embedding of the image-src resolution loop (auditor.py lines
277-280). -/
def resolvedImgUrls (url : String) (resp : FetchResponse) : List String :=
  resp.imgSrcs.map (fun src => urljoin url src)

/-- Drops everything from the first `#` on: Python
`absolute_url.split("#")[0]`. -/
def stripFragment (s : String) : String :=
  String.mk (s.data.takeWhile (fun c => c ≠ '#'))

/-- Embedding of the link-inventory loop (auditor.py lines 315-322):
first 40 anchors, empty hrefs skipped, joined against the input `url`,
fragment stripped, deduplicated preserving order. -/
def collectLinkUrls (url : String) (resp : FetchResponse) : List String :=
  (resp.anchorHrefs.take 40).foldl
    (fun acc href =>
      if href = "" then acc
      else
        let absolute := stripFragment (urljoin url href)
        if absolute ∈ acc then acc else acc ++ [absolute])
    []

/-- The concrete redirected fetch used to refute C8: the request URL
differs from the post-redirect final URL. -/
def redirectedFetch : FetchResponse :=
  { finalUrl := "https://b.example/dir/", scriptSrcs := ["app.js"] }

/-- C8 counterexample: with input URL `https://a.example` redirected to
final URL `https://b.example/dir/`, the discovered relative script
reference `app.js` is resolved against the original input URL, not
against the final post-redirect URL, and the two resolutions differ. -/
theorem resolution_base_counterexample :
    resolvedScriptUrls "https://a.example" redirectedFetch = ["https://a.example/app.js"] ∧
    urljoin redirectedFetch.finalUrl "app.js" = "https://b.example/dir/app.js" ∧
    resolvedScriptUrls "https://a.example" redirectedFetch
      ≠ redirectedFetch.scriptSrcs.map (fun src => urljoin redirectedFetch.finalUrl src) := by
  refine ⟨?_, ?_, ?_⟩ <;> decide

/-- C8 amended: every relative URL discovered on the page (script src,
stylesheet href, image src, anchor href) is resolved against the
original scheme-normalized input URL; the resolution is independent of
the fetched page's final post-redirect URL. -/
theorem resolution_base_uses_input_url (url : String) (resp : FetchResponse) (f1 f2 : String) :
    resolvedScriptUrls url resp = resp.scriptSrcs.map (fun src => urljoin url src) ∧
    resolvedCssUrls url resp = resp.cssHrefs.map (fun href => urljoin url href) ∧
    resolvedImgUrls url resp = resp.imgSrcs.map (fun src => urljoin url src) ∧
    resolvedScriptUrls url { resp with finalUrl := f1 }
      = resolvedScriptUrls url { resp with finalUrl := f2 } ∧
    resolvedCssUrls url { resp with finalUrl := f1 }
      = resolvedCssUrls url { resp with finalUrl := f2 } ∧
    resolvedImgUrls url { resp with finalUrl := f1 }
      = resolvedImgUrls url { resp with finalUrl := f2 } ∧
    collectLinkUrls url { resp with finalUrl := f1 }
      = collectLinkUrls url { resp with finalUrl := f2 } :=
  ⟨rfl, rfl, rfl, rfl, rfl, rfl, rfl⟩

/-- The seven-category suggestion mapping produced by the suggestion
engine (ai_suggestions.py): having exactly these seven category keys is
part of the type. -/
structure SuggestionSet where
  seo : List Suggestion
  performance : List Suggestion
  security : List Suggestion
  metadata : List Suggestion
  content : List Suggestion
  schema : List Suggestion
  general : List Suggestion
deriving DecidableEq

/-- Model of the Python one-decimal f-string formatting used inside some
fallback issue texts (round half up; the sizes involved are
nonnegative).  No theorem depends on the digits themselves. -/
def fmt1 (q : ℚ) : String :=
  let t : ℤ := ⌊q * 10 + 1 / 2⌋
  toString (t / 10) ++ "." ++ toString (t % 10)

/-- Embedding of `_generate_fallback_suggestions` (ai_suggestions.py
lines 256-450); the leading underscore of the Python name is dropped.
The sequential `suggestions[category].append(...)` calls become list
concatenation in source order; each condition mirrors the Python
truthiness test on the dictionary read. -/
def generate_fallback_suggestions (d : AuditData) : SuggestionSet :=
  { seo :=
      (if d.has_title.getD false = false ∨ d.title_length.getD 0 < 30 then
        [⟨"Title tag is missing or too short",
          "Add a descriptive title tag between 30-60 characters that includes your primary keyword and brand name. Example: \x27Your Brand - Primary Keyword | Secondary Keyword\x27"⟩]
      else
        [⟨"Enhance title tag strategy for better CTR",
          "Consider A/B testing title variations with power words, numbers, or emotional triggers to improve click-through rates in search results"⟩])
      ++ (if d.has_meta_description.getD false = false ∨ d.meta_length.getD 0 < 120 then
        [⟨"Meta description is missing or too short",
          "Create a compelling meta description between 120-160 characters that includes a call-to-action and your primary keyword to improve click-through rates"⟩]
      else
        [⟨"Optimize meta description for better engagement",
          "Test different meta descriptions with emotional triggers, questions, or special offers to increase SERP click-through rates"⟩])
      ++ (if d.h1_count.getD 0 = 0 then
        [⟨"Missing H1 heading tag",
          "Add a single H1 tag that clearly describes the main topic of the page and includes your primary keyword"⟩]
      else if 1 < d.h1_count.getD 0 then
        [⟨"Multiple H1 tags detected",
          "Use only one H1 tag per page for better SEO. Convert additional H1s to H2 or H3 tags to maintain proper heading hierarchy"⟩]
      else [])
      ++ (if 0 < d.missing_alt.getD 0 then
        [⟨toString (d.missing_alt.getD 0) ++ " images missing alt text",
          "Add descriptive alt text to all images for better accessibility and SEO. Alt text should describe the image content or function"⟩]
      else []),
    performance :=
      (if 500 < d.page_size_kb.getD 0 then
        [⟨"Page size is large (" ++ fmt1 (d.page_size_kb.getD 0) ++ " KB)",
          "Optimize page size by minifying HTML, CSS, and JavaScript. Consider lazy loading images and deferring non-critical scripts"⟩]
      else
        [⟨"Further optimize page load speed",
          "Implement advanced caching strategies, use CDN for static assets, and consider HTTP/2 or HTTP/3 for faster delivery"⟩])
      ++ (if 200 < d.js_size_kb.getD 0 then
        [⟨"JavaScript bundle is large (" ++ fmt1 (d.js_size_kb.getD 0) ++ " KB)",
          "Code-split JavaScript bundles, use tree-shaking, and defer non-critical scripts. Consider using dynamic imports for route-based code splitting"⟩]
      else
        [⟨"Optimize JavaScript delivery",
          "Use async/defer attributes for scripts, implement service workers for caching, and consider using Web Workers for heavy computations"⟩])
      ++ (if 300 < d.largest_image_kb.getD 0 then
        [⟨"Large image detected (" ++ fmt1 (d.largest_image_kb.getD 0) ++ " KB)",
          "Compress images using WebP or AVIF format, implement responsive images with srcset, and use lazy loading for below-the-fold images"⟩]
      else
        [⟨"Enhance image optimization strategy",
          "Implement next-gen image formats (WebP/AVIF), use responsive images with proper srcset attributes, and consider using a CDN for image delivery"⟩]),
    security :=
      (if (d.security_headers.getD {}).contentSecurityPolicy = false then
        [⟨"Missing Content-Security-Policy header",
          "Implement CSP header to prevent XSS attacks. Start with a restrictive policy and gradually relax it based on your site\x27s needs"⟩]
      else
        [⟨"Enhance Content-Security-Policy",
          "Review and tighten your CSP policy. Consider using \x27strict-dynamic\x27 and nonces for better security while maintaining functionality"⟩])
      ++ (if (d.security_headers.getD {}).xFrameOptions = false
            ∧ (d.security_headers.getD {}).contentSecurityPolicy = false then
        [⟨"Missing X-Frame-Options header",
          "Add X-Frame-Options: DENY or SAMEORIGIN header to prevent clickjacking attacks"⟩]
      else [])
      ++ (if (d.security_headers.getD {}).strictTransportSecurity = false then
        [⟨"Missing HSTS header",
          "Implement Strict-Transport-Security header with max-age of at least 31536000 to force HTTPS connections"⟩]
      else
        [⟨"Strengthen HSTS configuration",
          "Ensure HSTS includes \x27includeSubDomains\x27 and \x27preload\x27 directives for maximum security coverage"⟩]),
    metadata :=
      (if d.canonical_present.getD false = false then
        [⟨"Missing canonical tag",
          "Add a canonical tag pointing to the preferred URL version to avoid duplicate content issues and consolidate page signals"⟩]
      else
        [⟨"Enhance canonical tag strategy",
          "Review canonical tags across all pages to ensure they point to the correct canonical URLs and handle pagination properly"⟩])
      ++ [⟨"Add Open Graph and Twitter Card metadata",
          "Implement og:title, og:description, og:image, and Twitter Card meta tags to improve social media sharing appearance and engagement"⟩],
    content :=
      (if d.h2_count.getD 0 < 3 then
        [⟨"Limited heading structure",
          "Add more H2 and H3 headings to create a clear content hierarchy. This improves readability and helps search engines understand your content structure"⟩]
      else
        [⟨"Enhance content structure",
          "Review heading hierarchy to ensure logical flow. Use H2 for main sections and H3 for subsections to improve both SEO and user experience"⟩])
      ++ [⟨"Improve content depth and quality",
          "Create comprehensive, in-depth content that thoroughly covers topics. Aim for 1000+ words for main pages, include internal links, and add visual elements like images and videos"⟩],
    schema :=
      [⟨"Missing structured data (Schema.org)",
        "Implement JSON-LD structured data for Organization, WebSite, and BreadcrumbList. For content pages, add Article or Product schema to enable rich snippets in search results"⟩,
       ⟨"Enhance structured data implementation",
        "Add FAQ schema for common questions, Review/Rating schema for products, and Event schema if applicable. This can enable rich snippets and improve search visibility"⟩],
    general :=
      (if d.sitemap_available.getD false = false then
        [⟨"Sitemap.xml not found",
          "Create and submit an XML sitemap to Google Search Console. Include all important pages and update it regularly when content changes"⟩]
      else
        [⟨"Optimize sitemap strategy",
          "Ensure your sitemap is comprehensive, includes lastmod dates, and is properly submitted to search engines. Consider creating separate sitemaps for different content types"⟩])
      ++ [⟨"Improve mobile responsiveness",
          "Test your site on various mobile devices and screen sizes. Ensure touch targets are at least 44x44px, text is readable without zooming, and navigation is thumb-friendly"⟩,
         ⟨"Enhance accessibility (WCAG compliance)",
          "Improve accessibility by ensuring proper color contrast ratios (4.5:1 for text), keyboard navigation support, ARIA labels where needed, and screen reader compatibility"⟩] }

/-- One entry of a category list in the parsed external JSON response: a
JSON object (both keys optional), a bare string, or any other JSON value
(which `_normalize_suggestions` silently drops). -/
inductive RawItem where
  | rdict (issue : Option String) (suggestion : Option String)
  | rstr (s : String)
  | rother
deriving DecidableEq

/-- The parsed external JSON response as read by `generate_ai_suggestions`:
one optional list per category key, a missing key behaving as the empty
list via `suggestions.get(category, [])`. -/
structure RawSuggestions where
  seo : List RawItem := []
  performance : List RawItem := []
  security : List RawItem := []
  metadata : List RawItem := []
  content : List RawItem := []
  schema : List RawItem := []
  general : List RawItem := []
deriving DecidableEq

/-- Embedding of `_normalize_suggestions` (ai_suggestions.py lines
473-492); the leading underscore of the Python name is dropped.  Dict
entries keep their fields with empty-string defaults, strings are
duplicated into both fields, anything else is skipped. -/
def normalize_suggestions : List RawItem → List Suggestion
  | [] => []
  | RawItem.rdict i s :: rest => ⟨i.getD "", s.getD ""⟩ :: normalize_suggestions rest
  | RawItem.rstr s :: rest => ⟨s, s⟩ :: normalize_suggestions rest
  | RawItem.rother :: rest => normalize_suggestions rest

/-- The supplement loop body of `_ensure_minimum_suggestions`
(ai_suggestions.py lines 462-468): walk the fallback items, append each
one not already present, and stop as soon as the category reaches two
entries. -/
def addUntil : List Suggestion → List Suggestion → List Suggestion
  | cur, [] => cur
  | cur, f :: fs =>
      if f ∈ cur then addUntil cur fs
      else if 2 ≤ (cur ++ [f]).length then cur ++ [f]
      else addUntil (cur ++ [f]) fs

/-- One category pass of `_ensure_minimum_suggestions` (ai_suggestions.py
lines 460-468): categories that already hold two entries are left
untouched. -/
def ensureCategory (cur fb : List Suggestion) : List Suggestion :=
  if cur.length < 2 then addUntil cur fb else cur

/-- Embedding of `_ensure_minimum_suggestions` (ai_suggestions.py lines
453-470); the leading underscore of the Python name is dropped.  The
fallback supply is generated once from the audit data and each of the
seven categories is topped up independently. -/
def ensure_minimum_suggestions (result : SuggestionSet) (d : AuditData) : SuggestionSet :=
  let fb := generate_fallback_suggestions d
  { seo := ensureCategory result.seo fb.seo,
    performance := ensureCategory result.performance fb.performance,
    security := ensureCategory result.security fb.security,
    metadata := ensureCategory result.metadata fb.metadata,
    content := ensureCategory result.content fb.content,
    schema := ensureCategory result.schema fb.schema,
    general := ensureCategory result.general fb.general }

/-- Outcome of the one external model call attempted by
`generate_ai_suggestions`: `failure` covers every path that falls through
to the deterministic fallback (no client configured, a raised API error,
a JSON decode error, or a response whose category values are not
iterable), `success` carries the parsed JSON categories. -/
inductive AIOutcome where
  | failure
  | success (raw : RawSuggestions)
deriving DecidableEq

/-- Embedding of `generate_ai_suggestions` (ai_suggestions.py lines
170-253).  A falsy (empty) audit dictionary short-circuits to the
fallback on the empty dictionary; a successful external call is
normalized per category and topped up to the two-entry minimum; every
failure path returns the deterministic fallback.  The function is total:
no external outcome raises. -/
def generate_ai_suggestions (d : AuditData) (ext : AIOutcome) : SuggestionSet :=
  if d = emptyAudit then generate_fallback_suggestions emptyAudit
  else
    match ext with
    | AIOutcome.failure => generate_fallback_suggestions d
    | AIOutcome.success raw =>
        ensure_minimum_suggestions
          { seo := normalize_suggestions raw.seo,
            performance := normalize_suggestions raw.performance,
            security := normalize_suggestions raw.security,
            metadata := normalize_suggestions raw.metadata,
            content := normalize_suggestions raw.content,
            schema := normalize_suggestions raw.schema,
            general := normalize_suggestions raw.general } d

theorem Suggestion.ne_of_sugg (a b : Suggestion) (h : a.suggestion ≠ b.suggestion) : a ≠ b :=
  fun he => h (congrArg Suggestion.suggestion he)

/-- A list whose first two elements exist and differ. -/
def twoDistinct : List Suggestion → Prop
  | a :: b :: _ => a ≠ b
  | _ => False

theorem twoDistinct_length {l : List Suggestion} (h : twoDistinct l) : 2 ≤ l.length := by
  cases l with
  | nil => exact False.elim h
  | cons a t =>
    cases t with
    | nil => exact False.elim h
    | cons b r =>
      simp only [List.length_cons]
      omega

theorem addUntil_reaches_two (a b : Suggestion) (rest : List Suggestion) (hab : a ≠ b)
    (cur : List Suggestion) (hcur : cur.length < 2) :
    2 ≤ (addUntil cur (a :: b :: rest)).length := by
  cases cur with
  | nil =>
    have hba : ¬(b = a) := fun h => hab h.symm
    simp [addUntil, hba]
  | cons x t =>
    cases t with
    | nil =>
      by_cases hx : a = x
      · have hbx : ¬(b = x) := by
          rw [← hx]
          exact fun h => hab h.symm
        simp [addUntil, hx, hbx]
      · simp [addUntil, hx]
    | cons y r =>
      exfalso
      simp only [List.length_cons] at hcur
      omega

theorem ensureCategory_min_two {fb : List Suggestion} (h : twoDistinct fb)
    (cur : List Suggestion) : 2 ≤ (ensureCategory cur fb).length := by
  unfold ensureCategory
  split_ifs with hlen
  · cases fb with
    | nil => exact False.elim h
    | cons a t =>
      cases t with
      | nil => exact False.elim h
      | cons b rest => exact addUntil_reaches_two a b rest h cur hlen
  · omega

theorem fallback_seo_two (d : AuditData) :
    twoDistinct (generate_fallback_suggestions d).seo := by
  unfold generate_fallback_suggestions
  dsimp only
  split_ifs <;> (refine Suggestion.ne_of_sugg _ _ ?_; dsimp only; decide)

theorem fallback_performance_two (d : AuditData) :
    twoDistinct (generate_fallback_suggestions d).performance := by
  unfold generate_fallback_suggestions
  dsimp only
  split_ifs <;> (refine Suggestion.ne_of_sugg _ _ ?_; dsimp only; decide)

theorem fallback_security_two (d : AuditData) :
    twoDistinct (generate_fallback_suggestions d).security := by
  unfold generate_fallback_suggestions
  dsimp only
  split_ifs <;> (refine Suggestion.ne_of_sugg _ _ ?_; dsimp only; decide)

theorem fallback_metadata_two (d : AuditData) :
    twoDistinct (generate_fallback_suggestions d).metadata := by
  unfold generate_fallback_suggestions
  dsimp only
  split_ifs <;> (refine Suggestion.ne_of_sugg _ _ ?_; dsimp only; decide)

theorem fallback_content_two (d : AuditData) :
    twoDistinct (generate_fallback_suggestions d).content := by
  unfold generate_fallback_suggestions
  dsimp only
  split_ifs <;> (refine Suggestion.ne_of_sugg _ _ ?_; dsimp only; decide)

theorem fallback_schema_two (d : AuditData) :
    twoDistinct (generate_fallback_suggestions d).schema := by
  unfold generate_fallback_suggestions
  dsimp only
  refine Suggestion.ne_of_sugg _ _ ?_
  dsimp only
  decide

theorem fallback_general_two (d : AuditData) :
    twoDistinct (generate_fallback_suggestions d).general := by
  unfold generate_fallback_suggestions
  dsimp only
  split_ifs <;> (refine Suggestion.ne_of_sugg _ _ ?_; dsimp only; decide)

/-- C1: for every input feature set - including the empty one - and every
outcome of the one optional external call (failure, malformed shape, or
any parsed response), `generate_ai_suggestions` returns the mapping with
exactly the seven fixed categories (fixed by the `SuggestionSet` type),
each holding at least two issue/suggestion entries; the function is total,
so no external failure can propagate. -/
theorem suggestion_engine_seven_categories (d : AuditData) (ext : AIOutcome) :
    2 ≤ (generate_ai_suggestions d ext).seo.length ∧
    2 ≤ (generate_ai_suggestions d ext).performance.length ∧
    2 ≤ (generate_ai_suggestions d ext).security.length ∧
    2 ≤ (generate_ai_suggestions d ext).metadata.length ∧
    2 ≤ (generate_ai_suggestions d ext).content.length ∧
    2 ≤ (generate_ai_suggestions d ext).schema.length ∧
    2 ≤ (generate_ai_suggestions d ext).general.length := by
  unfold generate_ai_suggestions
  split_ifs with hd
  · exact ⟨twoDistinct_length (fallback_seo_two emptyAudit),
      twoDistinct_length (fallback_performance_two emptyAudit),
      twoDistinct_length (fallback_security_two emptyAudit),
      twoDistinct_length (fallback_metadata_two emptyAudit),
      twoDistinct_length (fallback_content_two emptyAudit),
      twoDistinct_length (fallback_schema_two emptyAudit),
      twoDistinct_length (fallback_general_two emptyAudit)⟩
  · cases ext with
    | failure =>
      exact ⟨twoDistinct_length (fallback_seo_two d),
        twoDistinct_length (fallback_performance_two d),
        twoDistinct_length (fallback_security_two d),
        twoDistinct_length (fallback_metadata_two d),
        twoDistinct_length (fallback_content_two d),
        twoDistinct_length (fallback_schema_two d),
        twoDistinct_length (fallback_general_two d)⟩
    | success raw =>
      exact ⟨ensureCategory_min_two (fallback_seo_two d) _,
        ensureCategory_min_two (fallback_performance_two d) _,
        ensureCategory_min_two (fallback_security_two d) _,
        ensureCategory_min_two (fallback_metadata_two d) _,
        ensureCategory_min_two (fallback_content_two d) _,
        ensureCategory_min_two (fallback_schema_two d) _,
        ensureCategory_min_two (fallback_general_two d) _⟩

/-- The persisted `results_data` blob of an audit record: the audit
feature dictionary plus the optional attached `ai_suggestions` key. -/
structure ResultsData where
  features : AuditData
  ai_suggestions : Option SuggestionSet
deriving DecidableEq

/-- The persisted audit record as the suggestion endpoints read it: a
falsy `results_data` blob is modelled as `none`. -/
structure Audit where
  results_data : Option ResultsData
deriving DecidableEq

/-- Response of the `/ai/suggestions/{audit_id}` endpoint. -/
inductive ApiOutcome where
  | httpError (status : Nat)
  | ok (body : SuggestionSet)
deriving DecidableEq

/-- Embedding of the `get_ai_suggestions` route handler (routers/ai.py
lines 9-31).  The suggestion generator is passed explicitly so that its
invocations can be counted; the result triple is the response, the record
as stored after the request, and the number of generator invocations.
On the uncached path the code computes the suggestions, mutates the
loaded `results_data` dictionary in place and commits; `results_data` is
a plain SQLAlchemy JSON column (models.py line 17) without mutation
tracking, so the in-place write is never flushed and the stored record
is left unchanged. -/
def get_ai_suggestions (audit : Option Audit) (gen : AuditData → SuggestionSet) :
    ApiOutcome × Option Audit × Nat :=
  match audit with
  | none => (ApiOutcome.httpError 404, none, 0)
  | some a =>
    match a.results_data with
    | none => (ApiOutcome.httpError 400, some a, 0)
    | some rd =>
      match rd.ai_suggestions with
      | some s => (ApiOutcome.ok s, some a, 0)
      | none => (ApiOutcome.ok (gen rd.features), some a, 1)

/-- Response of the `/fix/{audit_id}` page (main.py lines 253-291): the
no-audit template, the 400 error, or the rendered page with the
suggestion set handed to the template. -/
inductive PageOutcome where
  | noAuditPage
  | httpError (status : Nat)
  | page (suggestions : SuggestionSet)
deriving DecidableEq

/-- Embedding of the `fix_suggestions_page` handler (main.py lines
253-291), with the suggestion generator passed explicitly as in
`get_ai_suggestions`.  The write-back at main.py line 280 is the same
untracked in-place JSON mutation, so its commit also persists nothing
and the stored record is left unchanged. -/
def fix_suggestions_page (audit : Option Audit) (gen : AuditData → SuggestionSet) :
    PageOutcome × Option Audit × Nat :=
  match audit with
  | none => (PageOutcome.noAuditPage, none, 0)
  | some a =>
    match a.results_data with
    | none => (PageOutcome.httpError 400, some a, 0)
    | some rd =>
      match rd.ai_suggestions with
      | some s => (PageOutcome.page s, some a, 0)
      | none => (PageOutcome.page (gen rd.features), some a, 1)

/-- A record that already carries an attached suggestion set. -/
def cachedAudit : Audit :=
  { results_data :=
      some { features := emptyAudit,
             ai_suggestions := some (generate_fallback_suggestions emptyAudit) } }

/-- A completed record without attached suggestions: the failing input
for the at-most-once part of C3. -/
def uncachedAudit : Audit :=
  { results_data := some { features := emptyAudit, ai_suggestions := none } }

/-- C3: the code contradicts its own `# PREVENT DOUBLE GENERATION` and
`# SAVE TO DB` comments (routers/ai.py lines 19 and 26) and the claimed
caching contract.  Evaluated at a completed record without attached
suggestions: the first request invokes the generator, but commits an
untracked in-place JSON mutation, so the stored record is unchanged; a
second request on the stored record invokes the generator again -
suggestions are regenerated on every request, not generated at most
once.  The cached-read branch the claim also describes does hold in the
handler logic: a record already carrying a suggestion set is returned
verbatim by both endpoints with zero invocations and an unchanged
record. -/
theorem suggestions_regenerated_every_request :
    get_ai_suggestions (some uncachedAudit) generate_fallback_suggestions
      = (ApiOutcome.ok (generate_fallback_suggestions emptyAudit), some uncachedAudit, 1) ∧
    get_ai_suggestions
        ((get_ai_suggestions (some uncachedAudit) generate_fallback_suggestions).2.1)
        generate_fallback_suggestions
      = (ApiOutcome.ok (generate_fallback_suggestions emptyAudit), some uncachedAudit, 1) ∧
    fix_suggestions_page (some uncachedAudit) generate_fallback_suggestions
      = (PageOutcome.page (generate_fallback_suggestions emptyAudit), some uncachedAudit, 1) ∧
    get_ai_suggestions (some cachedAudit) generate_fallback_suggestions
      = (ApiOutcome.ok (generate_fallback_suggestions emptyAudit), some cachedAudit, 0) ∧
    fix_suggestions_page (some cachedAudit) generate_fallback_suggestions
      = (PageOutcome.page (generate_fallback_suggestions emptyAudit), some cachedAudit, 0) :=
  ⟨rfl, rfl, rfl, rfl, rfl⟩
